import Mathlib

/-!
Verification of the upload-and-extract pipeline of the
Image-Optical-Character-Recognition service (src/app.ts).

The embedding models:
  - the multer upload stage: MIME file filter, 5 MiB size limit, disk
    storage into the process temporary directory under the original name;
  - the Tesseract adapter extractTextFromImage, which catches every
    engine rejection and returns the JavaScript value false as a sentinel;
  - the POST /extract-text request handler with its three envelopes;
  - the GET /api demo endpoint;
  - the top-level error middleware, which formats any error passed to
    next as a 500 JSON body.

External collaborators (the OCR engine, axios) are modelled as oracles:
a function from the file path to an engine outcome, or a single outcome
value, supplied as a parameter.  JavaScript truthiness of the value held
in extractedText (the string or the literal false) is modelled by isFalsy.
-/

namespace ImageOCR

/-- An incoming multipart file part, as multer sees it: the client
supplied name, the MIME type, and the size in bytes. -/
structure UploadedFile where
  originalname : String
  mimetype : String
  size : Nat
  deriving DecidableEq, Repr

/-- Source line 73: the MIME types the filter accepts. -/
def allowedTypes : List String := ["image/jpeg", "image/png"]

/-- Source lines 68-81: fileFilter calls back with true when the MIME
type is in allowedTypes and with false otherwise (the file is then
silently dropped, no error is raised). -/
def fileFilter (file : UploadedFile) : Bool :=
  allowedTypes.contains file.mimetype

/-- Source line 85: limits.fileSize, 5 MiB in bytes. -/
def fileSizeLimit : Nat := 5 * 1024 * 1024

/-- Source lines 58-66: diskStorage keeps the original file name and
writes into the process-wide temporary directory, so the stored path is
the temporary directory joined with the original name. -/
def storedPath (tempDir : String) (file : UploadedFile) : String :=
  tempDir ++ "/" ++ file.originalname

/-- The message carried by the multer size-limit error object. -/
def limitFileSizeMessage : String := "File too large"

/-- Outcome of the upload.single middleware stage for one request:
either no file is attached to the request, or a stored file is attached,
or multer passes a size-limit error to the error-handling chain without
invoking the route handler. -/
inductive MulterOutcome where
  | noFile : MulterOutcome
  | stored : UploadedFile → MulterOutcome
  | limitError : String → MulterOutcome
  deriving DecidableEq, Repr

/-- The upload.single middleware on one optional file part: a missing
part or a part rejected by fileFilter leaves the request without a file;
an accepted part within the size limit is stored; an accepted part over
the limit becomes an error passed to the error middleware. -/
def multerSingle (upload : Option UploadedFile) : MulterOutcome :=
  match upload with
  | none => .noFile
  | some f =>
    if fileFilter f then
      if f.size ≤ fileSizeLimit then .stored f
      else .limitError limitFileSizeMessage
    else .noFile

/-- How the external OCR engine settles for a given file path:
Tesseract.recognize either resolves with the recognized text or rejects
with an error. -/
inductive EngineOutcome where
  | ok : String → EngineOutcome
  | err : String → EngineOutcome
  deriving DecidableEq, Repr

/-- The awaited Tesseract.recognize call, as the try block of
extractTextFromImage observes it: a normal value or a raised error. -/
def recognize (engine : String → EngineOutcome) (path : String) :
    Except String String :=
  match engine path with
  | .ok t => .ok t
  | .err e => .error e

/-- The JavaScript value extractTextFromImage returns: either the
recognized text string, or the literal false used as a failure
sentinel. -/
inductive ExtractResult where
  | text : String → ExtractResult
  | falseSentinel : ExtractResult
  deriving DecidableEq, Repr

/-- Source lines 99-112: extractTextFromImage awaits recognition and
returns the text; every rejection is caught and turned into the return
value false (the commented-out rethrow is dead code). -/
def extractTextFromImage (engine : String → EngineOutcome)
    (imagePath : String) : ExtractResult :=
  match recognize engine imagePath with
  | .ok text => .text text
  | .error _e => .falseSentinel

/-- JavaScript truthiness of the value held in extractedText: the
literal false is falsy, and so is the empty string. -/
def isFalsy : ExtractResult → Bool
  | .text t => t == ""
  | .falseSentinel => true

/-- The string carried by a truthy ExtractResult (what the handler puts
in the data field). -/
def textOf : ExtractResult → String
  | .text t => t
  | .falseSentinel => ""

/-- A primitive JSON value appearing in a data field: a string (the
recognized text) or a number (the upstream status code). -/
inductive JsonPrim where
  | str : String → JsonPrim
  | num : Int → JsonPrim
  deriving DecidableEq, Repr

/-- A flat JSON response body.  Every body this service sends is an
object over the keys success, status, message, data and error; a field
set to none is absent from the object. -/
structure Envelope where
  success : Option Bool
  status : Option Int
  message : Option String
  data : Option JsonPrim
  error : Option String
  deriving DecidableEq, Repr

/-- Source lines 156-159: the 400 body for a request with no file. -/
def noFileBody : Envelope :=
  ⟨some false, none, some "No file uploaded. Only jpg and png types accepted",
   none, none⟩

/-- Source lines 167-169 and 177-179: the 400 body for an extraction
failure or a caught exception. -/
def unknownErrorBody : Envelope :=
  ⟨some false, none, some "Unknown error occured", none, none⟩

/-- Source lines 171-175: the 200 body carrying the extracted text. -/
def successBody (text : String) : Envelope :=
  ⟨some true, none, some "Image text extracted successfully",
   some (.str text), none⟩

/-- Source lines 263-271: the top-level error middleware body, 500 with
success false, status 500 and the message of the error object. -/
def errorMiddlewareBody (msg : String) : Envelope :=
  ⟨some false, some 500, some msg, none, none⟩

/-- Source lines 217-220: the GET /api success body. -/
def apiSuccessBody (upstreamStatus : Int) : Envelope :=
  ⟨none, none, some "Demo API called (httpbin.org)",
   some (.num upstreamStatus), none⟩

/-- Source line 223: the GET /api failure body. -/
def apiFailureBody : Envelope :=
  ⟨none, none, none, none, some "Failed to call external API"⟩

/-- An HTTP response: status code and JSON body.  res.send with no
explicit status uses 200. -/
structure HttpResponse where
  status : Nat
  body : Envelope
  deriving DecidableEq, Repr

/-- Source lines 154-181: the POST /extract-text route handler.  The
try block (the awaited orchestration from line 165 to the send) is a
parameter of type Except: a normal ExtractResult, or an error for a
thrown exception, caught at line 176.  The handler returns exactly one
response on every path. -/
def extractTextHandler (tempDir : String) (file : Option UploadedFile)
    (tryBlock : String → Except String ExtractResult) : HttpResponse :=
  match file with
  | none => ⟨400, noFileBody⟩
  | some f =>
    let filePath := storedPath tempDir f
    match tryBlock filePath with
    | .error _e => ⟨400, unknownErrorBody⟩
    | .ok extractedText =>
      if isFalsy extractedText then ⟨400, unknownErrorBody⟩
      else ⟨200, successBody (textOf extractedText)⟩

/-- The orchestration as written in the source: the try block awaits
extractTextFromImage, which itself never throws, so the block settles
normally with the adapter result. -/
def normalTryBlock (engine : String → EngineOutcome) (path : String) :
    Except String ExtractResult :=
  .ok (extractTextFromImage engine path)

/-- One full POST /extract-text request: the multer stage runs first;
a size-limit error bypasses the route handler and is formatted by the
top-level error middleware as a 500; otherwise the route handler runs
with the attached file (or none). -/
def handleExtractText (tempDir : String) (upload : Option UploadedFile)
    (engine : String → EngineOutcome) : HttpResponse :=
  match multerSingle upload with
  | .noFile => extractTextHandler tempDir none (normalTryBlock engine)
  | .stored f => extractTextHandler tempDir (some f) (normalTryBlock engine)
  | .limitError msg => ⟨500, errorMiddlewareBody msg⟩

/-- The same full request, tracking the set of files in the temporary
directory.  The multer disk storage writes the stored file at its
storedPath; the route handler performs no filesystem operation at all
(the source contains no unlink or remove), so the list is unchanged
from storage to the end of the request. -/
def handleExtractTextFs (tempDir : String) (fs : List String)
    (upload : Option UploadedFile) (engine : String → EngineOutcome) :
    HttpResponse × List String :=
  match multerSingle upload with
  | .noFile => (extractTextHandler tempDir none (normalTryBlock engine), fs)
  | .stored f =>
    (extractTextHandler tempDir (some f) (normalTryBlock engine),
     storedPath tempDir f :: fs)
  | .limitError msg => (⟨500, errorMiddlewareBody msg⟩, fs)

/-- How the outbound axios.get call settles for GET /api: resolves with
an upstream status code, or rejects with an error message. -/
inductive AxiosOutcome where
  | ok : Int → AxiosOutcome
  | err : String → AxiosOutcome
  deriving DecidableEq, Repr

/-- Source lines 214-225: the GET /api handler. -/
def apiHandler (outcome : AxiosOutcome) : HttpResponse :=
  match outcome with
  | .ok s => ⟨200, apiSuccessBody s⟩
  | .err _e => ⟨500, apiFailureBody⟩

/-! Concrete sample inputs used by counterexamples and witnesses. -/

/-- A small accepted PNG upload. -/
def samplePng : UploadedFile := ⟨"sample.png", "image/png", 4⟩

/-- A second upload sharing the name of samplePng but differing in type
and size. -/
def samplePngTwin : UploadedFile := ⟨"sample.png", "image/jpeg", 9⟩

/-- An upload of a type outside the accepted list. -/
def sampleGif : UploadedFile := ⟨"sample.gif", "image/gif", 4⟩

/-- An accepted-type upload one byte over the 5 MiB limit. -/
def oversizedPng : UploadedFile := ⟨"big.png", "image/png", 5 * 1024 * 1024 + 1⟩

/-- An engine oracle that always recognizes the text HELLO. -/
def helloEngine : String → EngineOutcome := fun _ => .ok "HELLO"

/-- An engine oracle that always recognizes the empty string. -/
def emptyTextEngine : String → EngineOutcome := fun _ => .ok ""

/-- An engine oracle that always fails. -/
def failingEngine : String → EngineOutcome := fun _ => .err "decode failure"

end ImageOCR

namespace ImageOCR

/-! Claim theorems -/

/-- Claim C4: for every POST /extract-text request with no file attached
after MIME filtering, the handler responds 400 with the body success
false, message No file uploaded. Only jpg and png types accepted. -/
theorem C4_no_file_400 (tempDir : String) (upload : Option UploadedFile)
    (engine : String → EngineOutcome)
    (hnone : multerSingle upload = .noFile) :
    handleExtractText tempDir upload engine = ⟨400, noFileBody⟩ := by
  unfold handleExtractText
  rw [hnone]
  rfl

/-- Witness for C4 at the concrete request with no file part. -/
theorem C4_no_file_400_witness :
    multerSingle (none : Option UploadedFile) = .noFile
    ∧ handleExtractText "/tmp" none helloEngine = ⟨400, noFileBody⟩ :=
  ⟨rfl, C4_no_file_400 "/tmp" none helloEngine rfl⟩

/-- Claim C3: for every engine failure the adapter does not propagate a
raised error; extractTextFromImage returns the sentinel false, and the
call site inside the handler try block observes a normal return carrying
that sentinel. -/
theorem C3_adapter_sentinel (engine : String → EngineOutcome)
    (path e : String) (hfail : engine path = .err e) :
    extractTextFromImage engine path = .falseSentinel
    ∧ normalTryBlock engine path = .ok .falseSentinel := by
  have h1 : extractTextFromImage engine path = .falseSentinel := by
    unfold extractTextFromImage recognize
    rw [hfail]
  exact ⟨h1, by unfold normalTryBlock; rw [h1]⟩

/-- Witness for C3 at a concrete always-failing engine. -/
theorem C3_adapter_sentinel_witness :
    failingEngine "/tmp/sample.png" = .err "decode failure"
    ∧ extractTextFromImage failingEngine "/tmp/sample.png" = .falseSentinel
    ∧ normalTryBlock failingEngine "/tmp/sample.png" = .ok .falseSentinel := by
  refine ⟨rfl, ?_⟩
  exact C3_adapter_sentinel failingEngine "/tmp/sample.png" "decode failure" rfl

/-- Claim C9: GET /api sends 200 with message Demo API called
(httpbin.org) and the numeric upstream status as data when the outbound
call succeeds, and 500 with error Failed to call external API when it
fails. -/
theorem C9_api_handler (s : Int) (msg : String) :
    apiHandler (.ok s) =
      ⟨200, ⟨none, none, some "Demo API called (httpbin.org)",
             some (.num s), none⟩⟩
    ∧ apiHandler (.err msg) =
      ⟨500, ⟨none, none, none, none, some "Failed to call external API"⟩⟩ :=
  ⟨rfl, rfl⟩

/-- Claim C10: the POST /extract-text route handler (modelled as a total
function, so it sends exactly one response on every path) always
produces one of exactly three envelopes: 400 no-file, 400 unknown
error, or 200 success with some text. -/
theorem C10_handler_three_envelopes (tempDir : String)
    (file : Option UploadedFile)
    (tryBlock : String → Except String ExtractResult) :
    extractTextHandler tempDir file tryBlock = ⟨400, noFileBody⟩
    ∨ extractTextHandler tempDir file tryBlock = ⟨400, unknownErrorBody⟩
    ∨ ∃ t : String,
        extractTextHandler tempDir file tryBlock = ⟨200, successBody t⟩ := by
  cases file with
  | none => exact Or.inl rfl
  | some f =>
    cases htb : tryBlock (storedPath tempDir f) with
    | error e =>
      right; left
      simp [extractTextHandler, htb]
    | ok r =>
      by_cases hf : isFalsy r = true
      · right; left
        simp [extractTextHandler, htb, hf]
      · right; right
        refine ⟨textOf r, ?_⟩
        simp [extractTextHandler, htb, hf]

end ImageOCR

namespace ImageOCR

/-- Claim C5: fileFilter accepts a file iff its MIME type is exactly
image/jpeg or image/png, and every upload the filter rejects leaves the
request without a file, so the request receives the no-file 400
envelope. -/
theorem C5_mime_filter (tempDir : String) (engine : String → EngineOutcome)
    (f : UploadedFile) :
    (fileFilter f = true ↔
      (f.mimetype = "image/jpeg" ∨ f.mimetype = "image/png"))
    ∧ (fileFilter f = false →
        multerSingle (some f) = .noFile
        ∧ handleExtractText tempDir (some f) engine = ⟨400, noFileBody⟩) := by
  constructor
  · simp [fileFilter, allowedTypes]
  · intro hbad
    have hm : multerSingle (some f) = .noFile := by
      simp [multerSingle, hbad]
    exact ⟨hm, by unfold handleExtractText; rw [hm]; rfl⟩

/-- Witness for C5 at a concrete GIF upload. -/
theorem C5_mime_filter_witness :
    fileFilter sampleGif = false
    ∧ handleExtractText "/tmp" (some sampleGif) helloEngine =
        ⟨400, noFileBody⟩ := by
  refine ⟨by decide, ?_⟩
  exact ((C5_mime_filter "/tmp" helloEngine sampleGif).2 (by decide)).2

/-- Claim C1 counterexample: with an accepted upload present and the
engine succeeding with the empty string, the handler emits 400 with the
unknown-error body, not 200 with the success envelope, because the
JavaScript truthiness test conflates the empty text with the failure
sentinel. -/
theorem C1_counterexample :
    handleExtractText "/tmp" (some samplePng) emptyTextEngine =
      ⟨400, unknownErrorBody⟩
    ∧ handleExtractText "/tmp" (some samplePng) emptyTextEngine ≠
      ⟨200, successBody ""⟩ := by
  constructor
  · rfl
  · decide

/-- Claim C1 (amended): with an upload stored and the adapter
succeeding, the handler emits 200 with the success envelope for every
nonempty recognized text; when the recognized text is the empty string
the handler instead emits 400 with the unknown-error body. -/
theorem C1_success_envelope (tempDir : String) (f : UploadedFile)
    (engine : String → EngineOutcome) (t : String)
    (hstored : multerSingle (some f) = .stored f)
    (hengine : engine (storedPath tempDir f) = .ok t) :
    (t ≠ "" →
      handleExtractText tempDir (some f) engine = ⟨200, successBody t⟩)
    ∧ (t = "" →
      handleExtractText tempDir (some f) engine = ⟨400, unknownErrorBody⟩) := by
  have hext : extractTextFromImage engine (storedPath tempDir f) = .text t := by
    unfold extractTextFromImage recognize
    rw [hengine]
  constructor
  · intro hne
    simp [handleExtractText, hstored, extractTextHandler, normalTryBlock,
      hext, isFalsy, textOf, hne]
  · intro heq
    subst heq
    simp [handleExtractText, hstored, extractTextHandler, normalTryBlock,
      hext, isFalsy]

/-- Witness for C1 (amended) at a concrete upload and an engine
recognizing HELLO. -/
theorem C1_success_envelope_witness :
    multerSingle (some samplePng) = .stored samplePng
    ∧ helloEngine (storedPath "/tmp" samplePng) = .ok "HELLO"
    ∧ handleExtractText "/tmp" (some samplePng) helloEngine =
        ⟨200, successBody "HELLO"⟩ := by
  refine ⟨by decide, rfl, ?_⟩
  exact (C1_success_envelope "/tmp" samplePng helloEngine "HELLO"
    (by decide) rfl).1 (by decide)

/-- Claim C2: with an accepted upload, an adapter-reported failure and a
thrown exception yield the identical 400 unknown-error response; the
route handler never produces a 500 for any try-block outcome, and the
full pipeline never produces a 500 for an accepted-type upload within
the size limit. -/
theorem C2_uniform_400_never_500 (tempDir : String) (f : UploadedFile)
    (engine : String → EngineOutcome) (e : String)
    (hfail : engine (storedPath tempDir f) = .err e) :
    extractTextHandler tempDir (some f) (normalTryBlock engine) =
      ⟨400, unknownErrorBody⟩
    ∧ extractTextHandler tempDir (some f) (fun _ => .error e) =
      ⟨400, unknownErrorBody⟩
    ∧ (∀ tryBlock : String → Except String ExtractResult,
        (extractTextHandler tempDir (some f) tryBlock).status ≠ 500)
    ∧ (fileFilter f = true → f.size ≤ fileSizeLimit →
        (handleExtractText tempDir (some f) engine).status ≠ 500) := by
  have hext : extractTextFromImage engine (storedPath tempDir f) =
      .falseSentinel := by
    unfold extractTextFromImage recognize
    rw [hfail]
  have h1 : extractTextHandler tempDir (some f) (normalTryBlock engine) =
      ⟨400, unknownErrorBody⟩ := by
    simp [extractTextHandler, normalTryBlock, hext, isFalsy]
  have h3 : ∀ tryBlock : String → Except String ExtractResult,
      (extractTextHandler tempDir (some f) tryBlock).status ≠ 500 := by
    intro tryBlock
    cases htb : tryBlock (storedPath tempDir f) with
    | error e2 => simp [extractTextHandler, htb]
    | ok r =>
      by_cases hf : isFalsy r = true <;>
        simp [extractTextHandler, htb, hf]
  refine ⟨h1, by simp [extractTextHandler], h3, ?_⟩
  intro hacc hsize
  have hm : multerSingle (some f) = .stored f := by
    simp [multerSingle, hacc, hsize]
  have hpipe : handleExtractText tempDir (some f) engine =
      extractTextHandler tempDir (some f) (normalTryBlock engine) := by
    unfold handleExtractText
    rw [hm]
  rw [hpipe, h1]
  decide

/-- Witness for C2 at a concrete upload and an always-failing engine. -/
theorem C2_uniform_400_never_500_witness :
    failingEngine (storedPath "/tmp" samplePng) = .err "decode failure"
    ∧ extractTextHandler "/tmp" (some samplePng)
        (normalTryBlock failingEngine) = ⟨400, unknownErrorBody⟩ := by
  refine ⟨rfl, ?_⟩
  exact (C2_uniform_400_never_500 "/tmp" samplePng failingEngine
    "decode failure" rfl).1

end ImageOCR

namespace ImageOCR

/-- Claim C6 counterexample: an accepted-type upload one byte over the
5 MiB limit receives the structured JSON body of the top-level error
middleware (success false, status 500, message File too large), so the
rejection is a structured JSON error envelope, not a non-JSON
transport-level error as claimed. -/
theorem C6_counterexample :
    handleExtractText "/tmp" (some oversizedPng) helloEngine =
      ⟨500, errorMiddlewareBody limitFileSizeMessage⟩
    ∧ (handleExtractText "/tmp" (some oversizedPng) helloEngine).body =
      ⟨some false, some 500, some "File too large", none, none⟩ := by
  constructor
  · rfl
  · rfl

/-- Claim C6 (amended): every accepted-type upload over the size limit
is rejected before the route handler runs; the multer error reaches the
top-level error middleware, which sends 500 with the structured envelope
success false, status 500, message File too large.  The response does
not depend on the engine, showing the handler and adapter are never
consulted. -/
theorem C6_oversized_500 (tempDir : String) (f : UploadedFile)
    (engine : String → EngineOutcome)
    (haccept : fileFilter f = true) (hbig : fileSizeLimit < f.size) :
    handleExtractText tempDir (some f) engine =
      ⟨500, errorMiddlewareBody limitFileSizeMessage⟩
    ∧ (∀ engine2 : String → EngineOutcome,
        handleExtractText tempDir (some f) engine2 =
          handleExtractText tempDir (some f) engine) := by
  have hm : multerSingle (some f) = .limitError limitFileSizeMessage := by
    simp [multerSingle, haccept, Nat.not_le.mpr hbig]
  have hresp : ∀ engine2 : String → EngineOutcome,
      handleExtractText tempDir (some f) engine2 =
        ⟨500, errorMiddlewareBody limitFileSizeMessage⟩ := by
    intro engine2
    unfold handleExtractText
    rw [hm]
  exact ⟨hresp engine, fun engine2 => by rw [hresp engine2, hresp engine]⟩

/-- Witness for C6 (amended) at the concrete oversized upload. -/
theorem C6_oversized_500_witness :
    fileFilter oversizedPng = true
    ∧ fileSizeLimit < oversizedPng.size
    ∧ handleExtractText "/tmp" (some oversizedPng) helloEngine =
        ⟨500, errorMiddlewareBody limitFileSizeMessage⟩ := by
  refine ⟨by decide, by decide, ?_⟩
  exact (C6_oversized_500 "/tmp" oversizedPng helloEngine
    (by decide) (by decide)).1

/-- Claim C7: every accepted upload is written into the process-wide
temporary directory under its original client-supplied name, so two
uploads with identical names are stored at the same path. -/
theorem C7_storage_original_name (tempDir : String) (f1 f2 : UploadedFile)
    (fs : List String) (engine : String → EngineOutcome)
    (hstored : multerSingle (some f1) = .stored f1)
    (hname : f1.originalname = f2.originalname) :
    (handleExtractTextFs tempDir fs (some f1) engine).2 =
      (tempDir ++ "/" ++ f1.originalname) :: fs
    ∧ storedPath tempDir f1 = storedPath tempDir f2 := by
  constructor
  · unfold handleExtractTextFs
    rw [hstored]
    rfl
  · simp [storedPath, hname]

/-- Witness for C7 at two concrete uploads sharing a name. -/
theorem C7_storage_original_name_witness :
    multerSingle (some samplePng) = .stored samplePng
    ∧ samplePng.originalname = samplePngTwin.originalname
    ∧ storedPath "/tmp" samplePng = storedPath "/tmp" samplePngTwin := by
  refine ⟨by decide, by decide, ?_⟩
  exact (C7_storage_original_name "/tmp" samplePng samplePngTwin []
    helloEngine (by decide) (by decide)).2

/-- Claim C8 evaluation: no request ever removes a file from the
temporary directory (the handler performs no filesystem operation), and
after a concrete successful request the stored temporary file is still
present, contradicting the claimed removal on all exit paths. -/
theorem C8_temp_file_persists :
    (∀ (tempDir : String) (fs : List String)
      (upload : Option UploadedFile) (engine : String → EngineOutcome),
        fs ⊆ (handleExtractTextFs tempDir fs upload engine).2)
    ∧ handleExtractTextFs "/tmp" [] (some samplePng) helloEngine =
        (⟨200, successBody "HELLO"⟩, [storedPath "/tmp" samplePng]) := by
  constructor
  · intro tempDir fs upload engine
    cases hm : multerSingle upload <;>
      simp [handleExtractTextFs, hm, List.subset_cons_self]
  · rfl

end ImageOCR
